import Mathlib

set_option maxHeartbeats 1000000

/-!
Verification of the gocassa connection-pool and executor layer of the
hailocab service-layer repository.

The Go code is shallowly embedded:

* A driver connection (`*gocql.Conn`) is identified by a natural-number id;
  Go's `nil` connection is `Option.none`.
* A buffered channel of connections (`chan *gocql.Conn`) is a list: receive
  takes the head, send appends at the tail.  A host absent from the channel
  maps (a Go nil channel, on which every receive blocks) and an empty channel
  behave identically in the sequential semantics used here: nothing can be
  received, so the checkout timeout path fires.
* Every interaction with the outside world (the epsilon-greedy host pick,
  `Conn.Closed()`, `gocql.Connect`, `gocql.NewSession`, query execution,
  `getKsConfig`) is an explicit input threaded through an environment value,
  so all definitions are executable and deterministic.
* The 5-second checkout timer and the 1-second retry backoff are modelled by
  their observable effect in a sequential trace (the timeout branch of the
  select is taken exactly when neither queue can deliver a value).
-/

/-- A driver connection (`*gocql.Conn`), identified by its allocation id. -/
abbrev Conn := Nat

/-- Keyspace configuration (`ksConfig`).  The struct itself is defined outside
the provided sources; its fields are reconstructed from its uses in the pool,
the executor and the pool test (`ks`, `hosts`, `cl`, `timeout`, `cc.NumConns`).
The content hash computed by `ksConfig.hash()` (code not in the sources) is
represented by the stored field `hashVal`: the executor code only ever
compares hashes for equality. -/
structure ksConfig where
  ks : String
  hosts : List String
  cl : Nat
  timeout : Nat
  numConns : Nat
  hashVal : Nat
  deriving DecidableEq, Repr

/-- `ksConfig.hash()`. Modelled from the spec: the stable content hash of a
config (its computation lives outside the provided sources); two loads of the
same effective configuration agree on it, and the executor compares it for
equality only, so it is carried as a field of the immutable config value. -/
def ksConfig.hash (c : ksConfig) : Nat :=
  c.hashVal

/-- `gocqlConnCheckout`: a checked-out connection (possibly nil) paired with
the host-pool pick it was made under (`hpResp`; only the host of the pick is
relevant to the pool's state, the score update is recorded separately). -/
structure gocqlConnCheckout where
  conn : Option Conn
  hpHost : String
  deriving DecidableEq, Repr

/-- The environment consumed by one `checkout` call: the host chosen by the
epsilon-greedy host pool (`p.hp.Get()`), the `Closed()` status reported by
each connection at the moment of the check, and the result of
`gocql.Connect` (`none` models a dial error). -/
structure CheckoutEnv where
  pickedHost : String
  connClosed : Conn → Bool
  dialResult : Option Conn

/-- `gocqlConnectionPool`: per-host established/unestablished channels, the
list of every connection dialed and not yet bulk-closed (`activeConns`), and
the record of `hpResp.Mark` calls made by `checkin` (the host-selector score
updates, with the reported error). -/
structure gocqlConnectionPool where
  Cfg : ksConfig
  hostConnsEstablished : String → List (Option Conn)
  hostConnsUnestablished : String → List (Option Conn)
  activeConns : List Conn
  hpMarks : List (String × Option String)

/-- `gocqlConnectionPool.init()`: fresh empty established channel and an
unestablished channel pre-filled with `NumConns` nil tokens, for each
configured host; no connection dialed yet. -/
def gocqlConnectionPool.init (cfg : ksConfig) : gocqlConnectionPool where
  Cfg := cfg
  hostConnsEstablished := fun _ => []
  hostConnsUnestablished := fun h =>
    if h ∈ cfg.hosts then List.replicate cfg.numConns none else []
  activeConns := []
  hpMarks := []

/-- Replace one host's established channel contents. -/
def gocqlConnectionPool.setEst (p : gocqlConnectionPool) (h : String)
    (l : List (Option Conn)) : gocqlConnectionPool :=
  { p with hostConnsEstablished := fun h2 => if h2 = h then l else p.hostConnsEstablished h2 }

/-- Replace one host's unestablished channel contents. -/
def gocqlConnectionPool.setUnest (p : gocqlConnectionPool) (h : String)
    (l : List (Option Conn)) : gocqlConnectionPool :=
  { p with hostConnsUnestablished := fun h2 => if h2 = h then l else p.hostConnsUnestablished h2 }

/-- The `conn == nil || conn.Closed()` test of `checkout`. -/
def connDead (env : CheckoutEnv) : Option Conn → Bool
  | none => true
  | some c => env.connClosed c

/-- The tail of `checkout` after a value has been dequeued: if the value is
nil or closed, dial (`p.connect(hpResp.Host())`, which on success appends the
new connection to `activeConns`); on dial failure push the nil token back onto
the host's unestablished channel and hand out a nil connection. -/
def checkoutFinish (p : gocqlConnectionPool) (host : String) (env : CheckoutEnv)
    (c : Option Conn) : gocqlConnCheckout × gocqlConnectionPool :=
  if connDead env c then
    match env.dialResult with
    | some nc =>
        (⟨some nc, host⟩, { p with activeConns := p.activeConns ++ [nc] })
    | none =>
        (⟨none, host⟩, p.setUnest host (p.hostConnsUnestablished host ++ [none]))
  else
    (⟨c, host⟩, p)

/-- `gocqlConnectionPool.checkout()`.  The non-blocking receive from the
established channel is tried first; on miss the priority select delivers an
unestablished token when one is available, and otherwise the 5-second timer
fires and a nil-connection checkout is returned (in a sequential trace no
concurrent sender can make either empty channel deliver within the wait). -/
def gocqlConnectionPool.checkout (p : gocqlConnectionPool) (env : CheckoutEnv) :
    gocqlConnCheckout × gocqlConnectionPool :=
  match p.hostConnsEstablished env.pickedHost, p.hostConnsUnestablished env.pickedHost with
  | c :: rest, _ =>
      checkoutFinish (p.setEst env.pickedHost rest) env.pickedHost env c
  | [], c :: rest =>
      checkoutFinish (p.setUnest env.pickedHost rest) env.pickedHost env c
  | [], [] =>
      (⟨none, env.pickedHost⟩, p)

/-- `gocqlConnectionPool.checkin()`: unconditionally report the outcome to the
host selector (`conn.hpResp.Mark(err)`), then return a live connection (and
only a live connection) to the picked host's established channel. -/
def gocqlConnectionPool.checkin (p : gocqlConnectionPool) (co : gocqlConnCheckout)
    (err : Option String) : gocqlConnectionPool :=
  let p1 := { p with hpMarks := p.hpMarks ++ [(co.hpHost, err)] }
  match co.conn with
  | some c => p1.setEst co.hpHost (p1.hostConnsEstablished co.hpHost ++ [some c])
  | none => p1

/-- `gocqlConnectionPool.Size()`: number of connections dialed and not yet
bulk-closed. -/
def gocqlConnectionPool.Size (p : gocqlConnectionPool) : Nat :=
  p.activeConns.length

/-- `gocqlConnectionPool.Close()`: close every tracked connection and reset
the tracking list; the host channels are deliberately left untouched. -/
def gocqlConnectionPool.Close (p : gocqlConnectionPool) : gocqlConnectionPool :=
  { p with activeConns := [] }

/-- A fixed configuration mirroring the pool test's setup: single host
`host1`, two connections per host. -/
def testCfg : ksConfig where
  ks := "dummyks"
  hosts := ["host1"]
  cl := 1
  timeout := 1000
  numConns := 2
  hashVal := 17

/-- Helper checkout environment whose dial succeeds with connection `n` and
whose connections all report open. -/
def envDialOk (n : Conn) : CheckoutEnv where
  pickedHost := "host1"
  connClosed := fun _ => false
  dialResult := some n

/-- Helper checkout environment whose dial fails and whose connections all
report open. -/
def envDialFail : CheckoutEnv where
  pickedHost := "host1"
  connClosed := fun _ => false
  dialResult := none

/-- A concrete pool value with entirely empty channels (the state of a pool
whose every slot is checked out, or whose picked host is unknown to it). -/
def pEmpty : gocqlConnectionPool where
  Cfg := testCfg
  hostConnsEstablished := fun _ => []
  hostConnsUnestablished := fun _ => []
  activeConns := []
  hpMarks := []

/-! ### Sequential trace semantics for the pool

A trace interleaves `checkout` and `checkin` calls against one pool.  The
handles currently in flight are tracked so that the slot-conservation
invariant can speak about checked-out connections; `checkin` consumes a
handle the caller actually holds (each checkout is checked in at most once,
which is the pairing discipline the executor follows). -/

/-- One pool operation of a trace. -/
inductive PoolOp where
  | checkout (env : CheckoutEnv)
  | checkin (co : gocqlConnCheckout) (err : Option String)

/-- A pool together with the checkouts currently in flight. -/
structure PoolTrace where
  pool : gocqlConnectionPool
  outstanding : List gocqlConnCheckout

/-- The freshly initialised pool with no checkout in flight. -/
def initTrace (cfg : ksConfig) : PoolTrace where
  pool := gocqlConnectionPool.init cfg
  outstanding := []

/-- Execute one operation.  A `checkin` of a handle that is not in flight is
a no-op (the executor never does this; it is outside the checkout/checkin
pairing discipline). -/
def stepPool (s : PoolTrace) (op : PoolOp) : PoolTrace :=
  match op with
  | .checkout env =>
      let r := s.pool.checkout env
      { pool := r.2, outstanding := s.outstanding ++ [r.1] }
  | .checkin co err =>
      if co ∈ s.outstanding then
        { pool := s.pool.checkin co err, outstanding := s.outstanding.erase co }
      else
        s

/-- Execute a whole trace from a state. -/
def runPool (s : PoolTrace) (ops : List PoolOp) : PoolTrace :=
  ops.foldl stepPool s

/-- Whether an in-flight handle occupies a slot of host `h`: it was picked
for `h` and actually carries a connection (a nil-connection handle holds no
slot). -/
def holdsSlot (h : String) (co : gocqlConnCheckout) : Bool :=
  co.hpHost == h && co.conn.isSome

/-- Established count + unestablished count + in-flight checked-out count of
one host. -/
def slotSum (s : PoolTrace) (h : String) : Nat :=
  (s.pool.hostConnsEstablished h).length + (s.pool.hostConnsUnestablished h).length
    + s.outstanding.countP (holdsSlot h)

/-! ### The session-based executor (first version in `executor.go`)

This version of `gocqlExecutor` holds a `*gocql.Session` built directly from
the cluster config, and its `switchConfig` can fail (session construction
returns an error).  The watcher loop `watchConfig` reacts both to config
change notifications and to its own retry channel by calling
`reloadSession`. -/

namespace V1

/-- A driver session (`*gocql.Session`): its identity and whether `Close()`
has been called on it. -/
structure GoSession where
  sid : Nat
  closed : Bool
  deriving DecidableEq, Repr

/-- The session-based `gocqlExecutor`: keyspace name, initialisation flag,
the hash of the config the active session was built from, the stored config
and the session (none before first initialisation). -/
structure gocqlExecutor where
  ks : String
  initialised : Bool
  lastHash : Nat
  cfg : Option ksConfig
  session : Option GoSession
  deriving DecidableEq, Repr

/-- `gocqlExecutor.switchConfig` (session version).  Faithful to the source
order: the previous session, if any, is closed FIRST; the stored config is
replaced; only then is the new session built (`e.cfg.cc.CreateSession()`,
whose outcome is the input `createResult`).  On failure the error is
returned with the session field still naming the just-closed old session and
`lastHash` not updated; on success the new session and hash are stored.  The
returned flag is true when an error was returned. -/
def gocqlExecutor.switchConfig (e : gocqlExecutor) (newConfig : ksConfig)
    (createResult : Option GoSession) : gocqlExecutor × Bool :=
  let e1 :=
    match e.session with
    | some s => { e with session := some { s with closed := true } }
    | none => e
  let e2 := { e1 with cfg := some newConfig }
  match createResult with
  | none => (e2, true)
  | some s => ({ e2 with session := some s, lastHash := newConfig.hash }, false)

/-- The fate of one `reloadSession` invocation.  `completed e` means the call
returned with the executor in state `e`; `blocked e` means the call can never
return: the watcher goroutine is stuck forever with the executor left in
state `e`. -/
inductive ReloadOutcome where
  | completed (e : gocqlExecutor)
  | blocked (e : gocqlExecutor)
  deriving DecidableEq, Repr

/-- One `reloadSession` invocation of the session-based executor, driven by
the outcome of `getKsConfig` and of `CreateSession`.  On a failed
`switchConfig` the source logs, sleeps one second and then executes
`retryCh <- struct{}{}`: `retryCh` is unbuffered and its only receiver is the
`select` of the very goroutine making the send (`watchConfig`, which is
blocked inside this `reloadSession` call), so the send can never be paired —
the watcher goroutine blocks permanently, the reload is never re-triggered,
and no further config notification is ever processed.  This is modelled as
the `blocked` outcome, with the executor left as the failed `switchConfig`
left it. -/
def gocqlExecutor.reloadSession (e : gocqlExecutor)
    (cfgResult : Except String ksConfig) (createResult : Option GoSession) :
    ReloadOutcome :=
  match cfgResult with
  | .error _ => .completed e
  | .ok cfg =>
      if cfg.hash ≠ e.lastHash then
        match e.switchConfig cfg createResult with
        | (e1, true) => .blocked e1
        | (e1, false) => .completed e1
      else
        .completed e

end V1

/-! ### The pool-based executor (second version in `executor.go`)

This version of `gocqlExecutor` owns a `*gocqlConnectionPool`; its
`switchConfig` closes the superseded pool, builds and initialises a new pool
and stores the new hash (it cannot fail).  Pool identity (the Go pointer) is
tracked by a uid so that "the pool was not replaced" is expressible. -/

/-- A pool reference: the pool value plus a uid standing for the Go pointer
identity of the `*gocqlConnectionPool`. -/
structure PoolRef where
  uid : Nat
  pool : gocqlConnectionPool

/-- The pool-based `gocqlExecutor`: keyspace name, initialisation flag, hash
of the config the active pool was built from, the active pool (none before
first initialisation), and whether the `watchConfig` goroutine has been
started. -/
structure gocqlExecutor where
  ks : String
  initialised : Bool
  lastHash : Nat
  pool : Option PoolRef
  watcherStarted : Bool

/-- `gocqlExecutor.switchConfig` (pool version): the superseded pool, if any,
is bulk-closed and discarded, a brand-new pool is built from the new config
and initialised under a fresh identity `freshUid`, and the new hash is
stored. -/
def gocqlExecutor.switchConfig (e : gocqlExecutor) (newConfig : ksConfig)
    (freshUid : Nat) : gocqlExecutor :=
  let _oldClosed := e.pool.map (fun pr => pr.pool.Close)
  { e with
    pool := some { uid := freshUid, pool := gocqlConnectionPool.init newConfig }
    lastHash := newConfig.hash }

/-- One iteration of the pool-based executor's `watchConfig` loop, triggered
by a config-change notification: reload the config (`getKsConfig`, outcome
`cfgResult`); on load error only log; on a changed hash switch to the new
config; on an unchanged hash do nothing. -/
def gocqlExecutor.watchConfigIter (e : gocqlExecutor)
    (cfgResult : Except String ksConfig) (freshUid : Nat) : gocqlExecutor :=
  match cfgResult with
  | .error _ => e
  | .ok cfg =>
      if cfg.hash ≠ e.lastHash then
        e.switchConfig cfg freshUid
      else
        e

/-- `gocqlExecutor.init` (pool version): double-checked lazy initialisation.
Already-initialised executors return immediately; otherwise the config is
loaded (`getKsConfig`, outcome `cfgResult`) — on load failure the error is
returned with nothing changed — and on success the config is applied, the
`watchConfig` goroutine is started and the initialised flag is set. -/
def gocqlExecutor.init (e : gocqlExecutor) (cfgResult : Except String ksConfig)
    (freshUid : Nat) : gocqlExecutor × Option String :=
  if e.initialised then
    (e, none)
  else
    match cfgResult with
    | .error msg => (e, some msg)
    | .ok cfg =>
        let e1 := e.switchConfig cfg freshUid
        ({ e1 with initialised := true, watcherStarted := true }, none)

/-- A decoded result row (column name to decoded value, values opaque). -/
abbrev RowMap := List (String × String)

/-- The external outcomes consumed by one `Query`/`Execute` call after
initialisation: the checkout environment, the result of `gocql.NewSession`
over the single-connection adapter (`none` = success), and the rows and
final error produced by the driver running the statement. -/
structure QueryEnv where
  co : CheckoutEnv
  sessionErr : Option String
  rows : List RowMap
  queryErr : Option String

/-- `gocqlExecutor.Query` (pool version): initialise lazily (propagating the
load error), read the active pool, check a connection out, wrap it in the
`singlePool` adapter to build a per-call session; if session construction
fails check the connection straight back in with that error and return it;
otherwise run the statement, check the connection in with the statement's
outcome and return the rows and that outcome.  The `pool = none` branch is
unreachable from the executor's own call path (init installs a pool before
setting the flag). -/
def gocqlExecutor.Query (e : gocqlExecutor) (cfgResult : Except String ksConfig)
    (freshUid : Nat) (qenv : QueryEnv) : gocqlExecutor × (List RowMap × Option String) :=
  match e.init cfgResult freshUid with
  | (e1, some err) => (e1, ([], some err))
  | (e1, none) =>
      match e1.pool with
      | none => (e1, ([], some "no pool"))
      | some pr =>
          let r := pr.pool.checkout qenv.co
          match qenv.sessionErr with
          | some serr =>
              let p2 := r.2.checkin r.1 (some serr)
              ({ e1 with pool := some { pr with pool := p2 } }, ([], some serr))
          | none =>
              let p2 := r.2.checkin r.1 qenv.queryErr
              ({ e1 with pool := some { pr with pool := p2 } }, (qenv.rows, qenv.queryErr))

/-- `gocqlExecutor.ExecuteAtomically` (identical in both versions of the
executor): ignores its arguments and its receiver's state and returns the
fixed not-implemented error. -/
def gocqlExecutor.ExecuteAtomically (e : gocqlExecutor) (stmt : List String)
    (params : List (List String)) : gocqlExecutor × Option String :=
  (e, some "Execute atomically is not implemented yet")

/-! ### Claim theorems: checkout/checkin behaviour -/

/-- Claim C2: when the picked host's established queue is empty and no
connection or unestablished token is available within the wait budget (in the
sequential semantics: the unestablished queue is empty too), `checkout`
returns a handle whose connection is nil, paired with the host pick already
made, and leaves the pool unchanged — it neither blocks indefinitely nor
panics. -/
theorem checkout_exhaustion_nil_handle (p : gocqlConnectionPool) (env : CheckoutEnv)
    (hE : p.hostConnsEstablished env.pickedHost = [])
    (hU : p.hostConnsUnestablished env.pickedHost = []) :
    (p.checkout env).1 = ⟨none, env.pickedHost⟩ ∧ (p.checkout env).2 = p := by
  unfold gocqlConnectionPool.checkout
  rw [hE, hU]
  exact ⟨rfl, rfl⟩

/-- Witness for C2: a concrete pool with both queues empty. -/
theorem checkout_exhaustion_nil_handle_witness :
    (pEmpty.checkout envDialFail).1 = ⟨none, "host1"⟩
    ∧ (pEmpty.checkout envDialFail).2 = pEmpty :=
  checkout_exhaustion_nil_handle pEmpty envDialFail rfl rfl

/-- Claim C4: when the dequeued value is an unestablished token and the dial
fails, `checkout` pushes the empty token back onto that host's unestablished
queue (the queue length is preserved, no slot leaks), returns a handle with a
nil connection, touches no other host's unestablished queue, and leaves every
established queue and the dialed-connections list unchanged (one dial, no
retry, no panic). -/
theorem checkout_dial_failure_restores_token (p : gocqlConnectionPool) (env : CheckoutEnv)
    (rest : List (Option Conn))
    (hE : p.hostConnsEstablished env.pickedHost = [])
    (hU : p.hostConnsUnestablished env.pickedHost = none :: rest)
    (hD : env.dialResult = none) :
    (p.checkout env).1 = ⟨none, env.pickedHost⟩
    ∧ (p.checkout env).2.hostConnsUnestablished env.pickedHost = rest ++ [none]
    ∧ ((p.checkout env).2.hostConnsUnestablished env.pickedHost).length
        = (p.hostConnsUnestablished env.pickedHost).length
    ∧ (∀ h2, h2 ≠ env.pickedHost →
        (p.checkout env).2.hostConnsUnestablished h2 = p.hostConnsUnestablished h2)
    ∧ (∀ h2, (p.checkout env).2.hostConnsEstablished h2 = p.hostConnsEstablished h2)
    ∧ (p.checkout env).2.activeConns = p.activeConns := by
  unfold gocqlConnectionPool.checkout
  rw [hE, hU]
  simp only [checkoutFinish, connDead, hD, gocqlConnectionPool.setUnest, hU]
  refine ⟨rfl, by simp, by simp [hU], ?_, fun h2 => rfl, rfl⟩
  intro h2 hne
  simp [hne]

/-- Witness for C4: a freshly initialised test pool, a pick of its single
host and a failing dial. -/
theorem checkout_dial_failure_restores_token_witness :
    ((gocqlConnectionPool.init testCfg).checkout envDialFail).1 = ⟨none, "host1"⟩
    ∧ ((gocqlConnectionPool.init testCfg).checkout envDialFail).2.hostConnsUnestablished "host1"
        = [none] ++ [none] :=
  have h := checkout_dial_failure_restores_token (gocqlConnectionPool.init testCfg)
    envDialFail [none]
    (by simp [gocqlConnectionPool.init])
    (by simp [gocqlConnectionPool.init, testCfg]; rfl)
    rfl
  ⟨h.1, h.2.1⟩

/-- Claim C5: `checkin(handle, error)` always reports the outcome to the
host selector — one `Mark` with exactly the reported error, also when the
handle's connection is nil — and returns the connection to the picked host's
established queue exactly when the handle carries one; a nil-connection
checkin pushes nothing, no other host's established queue is touched, and
the unestablished queues and tracked-connections list are never modified. -/
theorem checkin_reports_and_requeues (p : gocqlConnectionPool)
    (co : gocqlConnCheckout) (err : Option String) :
    (p.checkin co err).hpMarks = p.hpMarks ++ [(co.hpHost, err)]
    ∧ (∀ c, co.conn = some c →
        (p.checkin co err).hostConnsEstablished co.hpHost
          = p.hostConnsEstablished co.hpHost ++ [some c])
    ∧ (co.conn = none → ∀ h2,
        (p.checkin co err).hostConnsEstablished h2 = p.hostConnsEstablished h2)
    ∧ (∀ h2, h2 ≠ co.hpHost →
        (p.checkin co err).hostConnsEstablished h2 = p.hostConnsEstablished h2)
    ∧ (p.checkin co err).hostConnsUnestablished = p.hostConnsUnestablished
    ∧ (p.checkin co err).activeConns = p.activeConns := by
  cases hc : co.conn with
  | none =>
      simp [gocqlConnectionPool.checkin, hc]
  | some c =>
      refine ⟨by simp [gocqlConnectionPool.checkin, hc, gocqlConnectionPool.setEst], ?_, ?_, ?_, ?_, ?_⟩
      · intro c2 hc2
        cases hc2
        simp [gocqlConnectionPool.checkin, hc, gocqlConnectionPool.setEst]
      · intro hn
        cases hn
      · intro h2 hne
        simp [gocqlConnectionPool.checkin, hc, gocqlConnectionPool.setEst, hne]
      · simp [gocqlConnectionPool.checkin, hc, gocqlConnectionPool.setEst]
      · simp [gocqlConnectionPool.checkin, hc, gocqlConnectionPool.setEst]

/-- Witness for C5: a live-connection checkin and a nil-connection checkin
against a concrete pool. -/
theorem checkin_reports_and_requeues_witness :
    (pEmpty.checkin ⟨some 4, "host1"⟩ none).hpMarks = [("host1", none)]
    ∧ (pEmpty.checkin ⟨some 4, "host1"⟩ none).hostConnsEstablished "host1" = [some 4]
    ∧ (pEmpty.checkin ⟨none, "host1"⟩ (some "boom")).hostConnsEstablished "host1" = []
    ∧ (pEmpty.checkin ⟨none, "host1"⟩ (some "boom")).hpMarks = [("host1", some "boom")] :=
  have h1 := checkin_reports_and_requeues pEmpty ⟨some 4, "host1"⟩ none
  have h2 := checkin_reports_and_requeues pEmpty ⟨none, "host1"⟩ (some "boom")
  ⟨h1.1, (h1.2.1 4 rfl).trans rfl, (h2.2.2.1 rfl "host1").trans rfl, h2.1⟩

/-- Claim C8: `ExecuteAtomically` ignores its statements and parameter sets,
always returns the fixed non-nil "not implemented" error, and leaves the
executor (hence the pool) completely unchanged — it performs no work at
all. -/
theorem executeAtomically_always_fails (e : gocqlExecutor) (stmt : List String)
    (params : List (List String)) :
    (e.ExecuteAtomically stmt params).2 = some "Execute atomically is not implemented yet"
    ∧ (e.ExecuteAtomically stmt params).2 ≠ none
    ∧ (e.ExecuteAtomically stmt params).1 = e :=
  ⟨rfl, by simp [gocqlExecutor.ExecuteAtomically], rfl⟩

/-- Claim C9 (implicit): when the value dequeued from the established queue
is a connection that reports `Closed()`, `checkout` never hands that dead
connection out: it removes it from the queue, dials afresh, and the handle
carries exactly the dial's result (the new connection on success — which is
then tracked — or nil on failure — in which case the slot is restored as an
unestablished token). -/
theorem checkout_dead_connection_not_returned (p : gocqlConnectionPool)
    (env : CheckoutEnv) (c : Conn) (rest : List (Option Conn))
    (hE : p.hostConnsEstablished env.pickedHost = some c :: rest)
    (hC : env.connClosed c = true) :
    (p.checkout env).1.conn = env.dialResult
    ∧ (p.checkout env).1.hpHost = env.pickedHost
    ∧ (p.checkout env).2.hostConnsEstablished env.pickedHost = rest
    ∧ (env.dialResult = none →
        (p.checkout env).2.hostConnsUnestablished env.pickedHost
          = p.hostConnsUnestablished env.pickedHost ++ [none])
    ∧ (∀ nc, env.dialResult = some nc →
        (p.checkout env).2.activeConns = p.activeConns ++ [nc]) := by
  unfold gocqlConnectionPool.checkout
  rw [hE]
  simp only [checkoutFinish, connDead, hC, if_true]
  cases hD : env.dialResult with
  | none =>
      simp [gocqlConnectionPool.setUnest, gocqlConnectionPool.setEst]
  | some nc =>
      simp [gocqlConnectionPool.setUnest, gocqlConnectionPool.setEst]

/-- Witness for C9: a pool whose established queue holds a closed connection
and whose redial succeeds with a fresh connection. -/
theorem checkout_dead_connection_not_returned_witness :
    ((pEmpty.setEst "host1" [some 9]).checkout
        { pickedHost := "host1", connClosed := fun _ => true, dialResult := some 10 }).1.conn
      = some 10
    ∧ ((pEmpty.setEst "host1" [some 9]).checkout
        { pickedHost := "host1", connClosed := fun _ => true, dialResult := some 10 }).2.hostConnsEstablished "host1"
      = [] :=
  have h := checkout_dead_connection_not_returned (pEmpty.setEst "host1" [some 9])
    { pickedHost := "host1", connClosed := fun _ => true, dialResult := some 10 }
    9 [] (by simp [gocqlConnectionPool.setEst, pEmpty]) rfl
  ⟨h.1, h.2.2.1⟩

/-! ### Claim theorems: reuse round-trip, config reload, initialisation -/

/-- Claim C7: against a freshly initialised pool with the single host
`host1` and 2 connections per host, a first `checkout` (whose dial succeeds
with connection `c`) returns a handle backed by the newly dialed connection
with `Size() = 1`; after checking that handle in with no error, a second
`checkout` (with the connection still open) returns a handle with the same
host and the identical connection. -/
theorem connection_reuse_roundtrip (env1 env2 : CheckoutEnv) (c : Conn)
    (h1 : env1.pickedHost = "host1") (h2 : env2.pickedHost = "host1")
    (hd : env1.dialResult = some c)
    (hc2 : env2.connClosed c = false) :
    let p0 := gocqlConnectionPool.init testCfg
    let r1 := p0.checkout env1
    let p2 := r1.2.checkin r1.1 none
    let r2 := p2.checkout env2
    r1.1.conn = some c ∧ r1.2.Size = 1
      ∧ r2.1.hpHost = r1.1.hpHost ∧ r2.1.conn = r1.1.conn := by
  obtain ⟨ph1, cc1, dr1⟩ := env1
  obtain ⟨ph2, cc2, dr2⟩ := env2
  simp only at h1 h2 hd hc2
  subst h1 h2 hd
  simp [gocqlConnectionPool.init, gocqlConnectionPool.checkout, checkoutFinish, connDead,
    testCfg, gocqlConnectionPool.checkin, gocqlConnectionPool.setEst,
    gocqlConnectionPool.setUnest, gocqlConnectionPool.Size, List.replicate, hc2]

/-- Witness for C7: concrete environments dialing connection 1. -/
theorem connection_reuse_roundtrip_witness :
    let p0 := gocqlConnectionPool.init testCfg
    let r1 := p0.checkout (envDialOk 1)
    let p2 := r1.2.checkin r1.1 none
    let r2 := p2.checkout (envDialOk 2)
    r1.1.conn = some 1 ∧ r1.2.Size = 1
      ∧ r2.1.hpHost = r1.1.hpHost ∧ r2.1.conn = r1.1.conn :=
  connection_reuse_roundtrip (envDialOk 1) (envDialOk 2) 1 rfl rfl rfl rfl

/-- A concrete pool-based executor, already initialised with `testCfg`. -/
def execP0 : gocqlExecutor where
  ks := "dummyks"
  initialised := true
  lastHash := 17
  pool := some ⟨3, gocqlConnectionPool.init testCfg⟩
  watcherStarted := true

/-- A concrete session-based executor, already initialised with `testCfg`
and holding the open session 1. -/
def execS0 : V1.gocqlExecutor where
  ks := "dummyks"
  initialised := true
  lastHash := 17
  cfg := some testCfg
  session := some ⟨1, false⟩

/-- A config differing from `testCfg` only in an effective parameter, hence
with a different hash. -/
def newCfg : ksConfig :=
  { testCfg with timeout := 2000, hashVal := 18 }

/-- Claim C6: a config-change notification whose freshly loaded config hashes
to the value the active pool was built from replaces nothing: the pool-based
executor is returned identically (same pool pointer, same stored hash, same
pool contents), and the session-based executor's `reloadSession` likewise
completes with its executor unchanged (its failure path — and hence the retry
send — is never reached). -/
theorem noop_reload_preserves_pool (e : gocqlExecutor) (cfg : ksConfig) (uid : Nat)
    (eS : V1.gocqlExecutor) (cfgS : ksConfig) (cr : Option V1.GoSession)
    (hP : cfg.hash = e.lastHash) (hS : cfgS.hash = eS.lastHash) :
    e.watchConfigIter (.ok cfg) uid = e
    ∧ (e.watchConfigIter (.ok cfg) uid).pool = e.pool
    ∧ (e.watchConfigIter (.ok cfg) uid).lastHash = e.lastHash
    ∧ eS.reloadSession (.ok cfgS) cr = .completed eS := by
  refine ⟨?_, ?_, ?_, ?_⟩ <;>
    simp [gocqlExecutor.watchConfigIter, V1.gocqlExecutor.reloadSession, hP, hS]

/-- Witness for C6: the concrete executors above with configs hashing to the
stored value. -/
theorem noop_reload_preserves_pool_witness :
    execP0.watchConfigIter (.ok testCfg) 99 = execP0
    ∧ execS0.reloadSession (.ok testCfg) none = .completed execS0 :=
  have h := noop_reload_preserves_pool execP0 testCfg 99 execS0 testCfg none rfl rfl
  ⟨h.1, h.2.2.2⟩

/-- Counterexample to claim C3 as stated: with the session-based executor
holding the open session 1 and a changed config whose session build fails,
`reloadSession` neither leaves the previously active session authoritative
and usable (the session has been closed: its closed flag is set, unlike
before the call) nor re-triggers the reload (the watcher goroutine ends up
permanently blocked on the unbuffered retry-channel send, so the call never
completes). -/
theorem reload_apply_failure_cex :
    execS0.reloadSession (.ok newCfg) none
      = .blocked { execS0 with session := some ⟨1, true⟩, cfg := some newCfg }
    ∧ some (⟨1, true⟩ : V1.GoSession) ≠ execS0.session := by
  decide

/-- Claim C3 as amended: when the watcher detects a changed hash but building
the new session fails, the apply is not atomic — the executor has already
closed its previously active session and replaced the stored config before
the build attempt, with only the stored hash keeping its old value — and the
intended 1-second-backoff retry never happens: after the backoff sleep the
watcher's send on its own unbuffered retry channel can never be received, so
the watcher goroutine blocks permanently, the reload is never re-triggered,
no further config notification is processed, and Query/Execute keep serving
from the closed old session indefinitely. -/
theorem reload_apply_failure_blocks (e : V1.gocqlExecutor) (cfg : ksConfig)
    (s0 : V1.GoSession)
    (hs : e.session = some s0) (hh : cfg.hash ≠ e.lastHash) :
    e.reloadSession (.ok cfg) none
      = .blocked { e with session := some { s0 with closed := true }, cfg := some cfg } := by
  simp [V1.gocqlExecutor.reloadSession, V1.gocqlExecutor.switchConfig, hh, hs]

/-- Witness for the amended C3: the concrete failing apply above ends
blocked, with the session closed, the config replaced and the hash kept. -/
theorem reload_apply_failure_blocks_witness :
    execS0.reloadSession (.ok newCfg) none
      = .blocked { execS0 with session := some ⟨1, true⟩, cfg := some newCfg } :=
  reload_apply_failure_blocks execS0 newCfg ⟨1, false⟩ rfl (by decide)

/-- Helper: `checkoutFinish` never touches the pool's config. -/
theorem checkoutFinish_Cfg (p : gocqlConnectionPool) (host : String)
    (env : CheckoutEnv) (c : Option Conn) :
    (checkoutFinish p host env c).2.Cfg = p.Cfg := by
  unfold checkoutFinish
  split
  · rcases hD : env.dialResult with _ | nc <;> simp [hD, gocqlConnectionPool.setUnest]
  · rfl

/-- Helper: `checkout` never touches the pool's config. -/
theorem checkout_Cfg (p : gocqlConnectionPool) (env : CheckoutEnv) :
    (p.checkout env).2.Cfg = p.Cfg := by
  unfold gocqlConnectionPool.checkout
  split
  · rw [checkoutFinish_Cfg]; rfl
  · rw [checkoutFinish_Cfg]; rfl
  · rfl

/-- Helper: `checkin` never touches the pool's config. -/
theorem checkin_Cfg (p : gocqlConnectionPool) (co : gocqlConnCheckout)
    (err : Option String) :
    (p.checkin co err).Cfg = p.Cfg := by
  unfold gocqlConnectionPool.checkin
  cases co.conn <;> rfl

/-- Claim C10 (implicit): when loading the keyspace config fails during the
first `Query` call, that call returns exactly the load error and the
executor value is returned untouched — still uninitialised, no pool built,
no watcher started; a subsequent `Query` whose load succeeds then performs
the full initialisation from scratch: the flag and the watcher are set, the
freshly built pool (under the new identity) carries the loaded config, and
the config's hash is stored. -/
theorem init_failure_is_retryable (e : gocqlExecutor) (msg : String)
    (uid uid2 : Nat) (cfg : ksConfig) (qenv qenv2 : QueryEnv)
    (h0 : e.initialised = false) :
    (e.Query (.error msg) uid qenv).2 = ([], some msg)
    ∧ (e.Query (.error msg) uid qenv).1 = e
    ∧ ((e.Query (.error msg) uid qenv).1.Query (.ok cfg) uid2 qenv2).1.initialised = true
    ∧ ((e.Query (.error msg) uid qenv).1.Query (.ok cfg) uid2 qenv2).1.watcherStarted = true
    ∧ ((e.Query (.error msg) uid qenv).1.Query (.ok cfg) uid2 qenv2).1.lastHash = cfg.hash
    ∧ ((e.Query (.error msg) uid qenv).1.Query (.ok cfg) uid2 qenv2).1.pool.map PoolRef.uid
        = some uid2
    ∧ ∃ pr, ((e.Query (.error msg) uid qenv).1.Query (.ok cfg) uid2 qenv2).1.pool = some pr
        ∧ pr.pool.Cfg = cfg := by
  have h1 : e.Query (.error msg) uid qenv = (e, ([], some msg)) := by
    simp [gocqlExecutor.Query, gocqlExecutor.init, h0]
  rw [h1]
  refine ⟨rfl, rfl, ?_⟩
  simp only [gocqlExecutor.Query, gocqlExecutor.init, h0, Bool.false_eq_true, if_false,
    gocqlExecutor.switchConfig]
  rcases hS : qenv2.sessionErr with _ | serr <;>
    simp [hS, checkout_Cfg, checkin_Cfg, ksConfig.hash, gocqlConnectionPool.init]

/-- A concrete never-initialised executor. -/
def execFresh : gocqlExecutor where
  ks := "dummyks"
  initialised := false
  lastHash := 0
  pool := none
  watcherStarted := false

/-- A concrete query environment: dial succeeds, session builds, statement
succeeds with no rows. -/
def qenv0 : QueryEnv where
  co := envDialOk 1
  sessionErr := none
  rows := []
  queryErr := none

/-- Witness for C10: a fresh executor whose first load fails and whose second
load returns the test config. -/
theorem init_failure_is_retryable_witness :
    (execFresh.Query (.error "load failed") 5 qenv0).2 = ([], some "load failed")
    ∧ (execFresh.Query (.error "load failed") 5 qenv0).1 = execFresh
    ∧ ((execFresh.Query (.error "load failed") 5 qenv0).1.Query
        (.ok testCfg) 6 qenv0).1.initialised = true :=
  have h := init_failure_is_retryable execFresh "load failed" 5 6 testCfg qenv0 qenv0 rfl
  ⟨h.1, h.2.1, h.2.2.1⟩

/-! ### Slot conservation (claim C1)

The key balance fact: one `checkout` changes
`established + unestablished + (1 if the returned handle holds a slot)`
of every host by exactly the slot the handle took (nothing for other hosts,
nothing on timeout or dial failure), and one `checkin` moves a held slot back
into the established queue.  Folding over a trace keeps the per-host slot sum
constant at its initial value `NumConns`. -/

/-- Helper: `countP` over `List.erase` of a member drops exactly that
member's contribution. -/
theorem countP_erase_of_mem {α : Type} [DecidableEq α] (p : α → Bool) (a : α) :
    ∀ l : List α, a ∈ l →
      l.countP p = (l.erase a).countP p + (if p a then 1 else 0)
  | b :: t, h => by
      by_cases hba : b = a
      · subst hba
        rw [List.erase_cons_head, List.countP_cons]
      · have ht : a ∈ t := by
          cases h with
          | head => exact absurd rfl hba
          | tail _ h2 => exact h2
        rw [List.erase_cons_tail (by simp [hba]), List.countP_cons, List.countP_cons,
          countP_erase_of_mem p a t ht]
        omega


/-- Helper: reading the established channels after `setEst`. -/
theorem setEst_est (p : gocqlConnectionPool) (h : String) (l : List (Option Conn))
    (h2 : String) :
    (p.setEst h l).hostConnsEstablished h2
      = if h2 = h then l else p.hostConnsEstablished h2 := rfl

/-- Helper: `setEst` leaves the unestablished channels alone. -/
theorem setEst_unest (p : gocqlConnectionPool) (h : String) (l : List (Option Conn)) :
    (p.setEst h l).hostConnsUnestablished = p.hostConnsUnestablished := rfl

/-- Helper: reading the unestablished channels after `setUnest`. -/
theorem setUnest_unest (p : gocqlConnectionPool) (h : String) (l : List (Option Conn))
    (h2 : String) :
    (p.setUnest h l).hostConnsUnestablished h2
      = if h2 = h then l else p.hostConnsUnestablished h2 := rfl

/-- Helper: `setUnest` leaves the established channels alone. -/
theorem setUnest_est (p : gocqlConnectionPool) (h : String) (l : List (Option Conn)) :
    (p.setUnest h l).hostConnsEstablished = p.hostConnsEstablished := rfl

/-- Helper: the slot held by a handle, unfolded. -/
theorem holdsSlot_mk (h host : String) (oc : Option Conn) :
    holdsSlot h ⟨oc, host⟩ = ((host == h) && oc.isSome) := rfl

/-- Helper: checkout equation, established-dequeue case. -/
theorem checkout_eq_est (p : gocqlConnectionPool) (env : CheckoutEnv)
    (c : Option Conn) (rest : List (Option Conn))
    (hE : p.hostConnsEstablished env.pickedHost = c :: rest) :
    p.checkout env = checkoutFinish (p.setEst env.pickedHost rest) env.pickedHost env c := by
  unfold gocqlConnectionPool.checkout
  rw [hE]

/-- Helper: checkout equation, unestablished-dequeue case. -/
theorem checkout_eq_unest (p : gocqlConnectionPool) (env : CheckoutEnv)
    (c : Option Conn) (rest : List (Option Conn))
    (hE : p.hostConnsEstablished env.pickedHost = [])
    (hU : p.hostConnsUnestablished env.pickedHost = c :: rest) :
    p.checkout env = checkoutFinish (p.setUnest env.pickedHost rest) env.pickedHost env c := by
  unfold gocqlConnectionPool.checkout
  rw [hE, hU]

/-- Helper: checkout equation, timeout case. -/
theorem checkout_eq_timeout (p : gocqlConnectionPool) (env : CheckoutEnv)
    (hE : p.hostConnsEstablished env.pickedHost = [])
    (hU : p.hostConnsUnestablished env.pickedHost = []) :
    p.checkout env = (⟨none, env.pickedHost⟩, p) := by
  unfold gocqlConnectionPool.checkout
  rw [hE, hU]

/-- Helper: the slot balance of `checkoutFinish`: whatever the dequeued value
and the dial outcome, the queues of host `h` plus the slot the returned
handle holds amount to the incoming queues plus one exactly when `h` is the
picked host. -/
theorem checkoutFinish_slot_balance (p : gocqlConnectionPool) (host : String)
    (env : CheckoutEnv) (c : Option Conn) (h : String) :
    ((checkoutFinish p host env c).2.hostConnsEstablished h).length
      + ((checkoutFinish p host env c).2.hostConnsUnestablished h).length
      + (if holdsSlot h (checkoutFinish p host env c).1 then 1 else 0)
    = (p.hostConnsEstablished h).length + (p.hostConnsUnestablished h).length
      + (if h = host then 1 else 0) := by
  unfold checkoutFinish
  by_cases hd : connDead env c
  · rw [if_pos hd]
    rcases hD : env.dialResult with _ | nc
    · dsimp only
      rw [setUnest_est, setUnest_unest, holdsSlot_mk]
      by_cases hh : h = host
      · subst hh
        simp
        omega
      · have hh2 : ¬ host = h := fun e => hh e.symm
        simp [hh, hh2]
    · dsimp only
      rw [holdsSlot_mk]
      by_cases hh : h = host
      · subst hh
        simp
      · have hh2 : ¬ host = h := fun e => hh e.symm
        simp [hh, hh2]
  · rw [if_neg hd]
    rcases c with _ | cn
    · simp [connDead] at hd
    · dsimp only
      rw [holdsSlot_mk]
      by_cases hh : h = host
      · subst hh
        simp
      · have hh2 : ¬ host = h := fun e => hh e.symm
        simp [hh, hh2]

/-- Helper: the slot balance of one `checkout`: the queues of any host plus
the slot held by the returned handle equal the incoming queues of that
host. -/
theorem checkout_slot_balance (p : gocqlConnectionPool) (env : CheckoutEnv)
    (h : String) :
    ((p.checkout env).2.hostConnsEstablished h).length
      + ((p.checkout env).2.hostConnsUnestablished h).length
      + (if holdsSlot h (p.checkout env).1 then 1 else 0)
    = (p.hostConnsEstablished h).length + (p.hostConnsUnestablished h).length := by
  match hE : p.hostConnsEstablished env.pickedHost with
  | c :: rest =>
      rw [checkout_eq_est p env c rest hE, checkoutFinish_slot_balance]
      by_cases hh : h = env.pickedHost
      · subst hh
        rw [setEst_unest, setEst_est]
        simp [hE]
        omega
      · rw [setEst_unest, setEst_est]
        simp [hh]
  | [] =>
      match hU : p.hostConnsUnestablished env.pickedHost with
      | c :: rest =>
          rw [checkout_eq_unest p env c rest hE hU, checkoutFinish_slot_balance]
          by_cases hh : h = env.pickedHost
          · subst hh
            rw [setUnest_est, setUnest_unest]
            simp [hU]
            omega
          · rw [setUnest_est, setUnest_unest]
            simp [hh]
      | [] =>
          rw [checkout_eq_timeout p env hE hU]
          simp [holdsSlot_mk]

/-- Helper: one `checkin` grows the established queue of host `h` by exactly
the slot the handle held for `h`, and no other queue. -/
theorem checkin_est_length (p : gocqlConnectionPool) (co : gocqlConnCheckout)
    (err : Option String) (h : String) :
    ((p.checkin co err).hostConnsEstablished h).length
    = (p.hostConnsEstablished h).length + (if holdsSlot h co then 1 else 0) := by
  rcases co with ⟨oc, host⟩
  rcases oc with _ | c
  · simp [gocqlConnectionPool.checkin, holdsSlot_mk]
  · rw [holdsSlot_mk]
    by_cases hh : h = host
    · subst hh
      simp [gocqlConnectionPool.checkin, setEst_est]
    · have hh2 : ¬ host = h := fun e => hh e.symm
      simp [gocqlConnectionPool.checkin, setEst_est, hh, hh2]

/-- Helper: `checkin` never touches the unestablished queues. -/
theorem checkin_unest (p : gocqlConnectionPool) (co : gocqlConnCheckout)
    (err : Option String) :
    (p.checkin co err).hostConnsUnestablished = p.hostConnsUnestablished := by
  unfold gocqlConnectionPool.checkin
  cases co.conn <;> rfl

/-- Helper: every trace step preserves the per-host slot sum. -/
theorem stepPool_slotSum (s : PoolTrace) (op : PoolOp) (h : String) :
    slotSum (stepPool s op) h = slotSum s h := by
  cases op with
  | checkout env =>
      unfold stepPool slotSum
      dsimp only
      simp only [List.countP_append, List.countP_cons, List.countP_nil]
      have hb := checkout_slot_balance s.pool env h
      omega
  | checkin co err =>
      unfold stepPool
      by_cases hmem : co ∈ s.outstanding
      · simp only [hmem, if_true]
        unfold slotSum
        dsimp only
        have hcnt := countP_erase_of_mem (holdsSlot h) co s.outstanding hmem
        have hest := checkin_est_length s.pool co err h
        have hun := checkin_unest s.pool co err
        rw [hun]
        omega
      · simp [hmem]

/-- Helper: the slot sum is invariant along any trace. -/
theorem runPool_slotSum (ops : List PoolOp) (s : PoolTrace) (h : String) :
    slotSum (runPool s ops) h = slotSum s h := by
  induction ops generalizing s with
  | nil => rfl
  | cons op t ih =>
      show slotSum (runPool (stepPool s op) t) h = slotSum s h
      rw [ih (stepPool s op), stepPool_slotSum]

/-- Helper: the slot sum of a freshly initialised pool. -/
theorem slotSum_initTrace (cfg : ksConfig) (h : String) :
    slotSum (initTrace cfg) h = if h ∈ cfg.hosts then cfg.numConns else 0 := by
  unfold slotSum initTrace gocqlConnectionPool.init
  by_cases hh : h ∈ cfg.hosts <;> simp [hh]

/-- Claim C1: along every sequence of checkout/checkin operations against a
pool initialised from a config with `NumConns = N`, and for every host, the
established count plus the unestablished count plus the number of in-flight
checked-out slots never exceeds `N`; moreover for every configured host the
sum stays exactly `N` — every token or connection a checkout removes is
accounted for by exactly one of: the handle in flight, a checkin returning a
live connection to the established queue, or the unestablished token restored
on dial failure. -/
theorem slot_conservation (cfg : ksConfig) (ops : List PoolOp) (h : String) :
    slotSum (runPool (initTrace cfg) ops) h ≤ cfg.numConns
    ∧ (h ∈ cfg.hosts → slotSum (runPool (initTrace cfg) ops) h = cfg.numConns) := by
  rw [runPool_slotSum, slotSum_initTrace]
  by_cases hh : h ∈ cfg.hosts <;> simp [hh]

/-- A demonstration trace: dial a connection, check it in, check it out
again, then exhaust the second slot with a failing dial. -/
def opsDemo : List PoolOp :=
  [ .checkout (envDialOk 1), .checkin ⟨some 1, "host1"⟩ none,
    .checkout (envDialOk 2), .checkout envDialFail ]

/-- Witness for C1: the demonstration trace against the test pool keeps the
slot sum of `host1` at its bound 2. -/
theorem slot_conservation_witness :
    slotSum (runPool (initTrace testCfg) opsDemo) "host1" ≤ 2
    ∧ slotSum (runPool (initTrace testCfg) opsDemo) "host1" = 2 :=
  ⟨(slot_conservation testCfg opsDemo "host1").1,
   (slot_conservation testCfg opsDemo "host1").2 (by simp [testCfg])⟩
